/-
Verification of the e-commerce analytics pipeline: a shallow embedding of
`data_loader.py` (sales-view construction, data summary) and
`business_metrics.py` (revenue, trend, category, geography, satisfaction and
delivery metrics), together with theorems settling the specification claims.

Modelling conventions:
* currency amounts and review scores are rationals (`ℚ`); Python floats carry
  no overflow/rounding relevant to the claims proved here;
* timestamps are integer day counts (`ℤ`): the only timestamp arithmetic the
  code performs is `(delivered - purchase).dt.days`, an integer day difference;
* a pandas `NaN` / missing value is `Option.none`; pandas merge semantics
  (a null key matches nothing, an unmatched left row is kept once with null
  fill, k matching right rows fan a left row out into k rows) are modelled by
  `leftJoin` below;
* a raised Python exception is `Except.error`; a *returned* `{"error": ...}`
  dictionary (the soft-fail marker of the satisfaction/delivery analyses) is
  the ordinary value `SoftResult.errorMap`, so raising and soft-failing are
  distinguished by type;
* a dataframe is a `SalesFrame`: a list of `SalesRecord` rows plus the list
  `cols` of the *optional dimension columns* present (`month`,
  `product_category_name`, `customer_state`, `review_score`, `delivery_days`).
  The base order-item columns (`order_id`, `order_item_id`, `product_id`,
  `price`, `freight_value`) are structure fields and always present, as the
  order-items schema guarantees;
* float `NaN`/`inf` values produced by pandas on empty inputs or zero
  denominators are not representable in `ℚ`; where the code produces such a
  value (mean of an empty series, `pct_change` over a zero baseline) the model
  uses `none`, and every theorem below that touches these spots carries the
  corresponding non-degeneracy hypothesis.
-/
import Mathlib

/-! ## Table rows (cleaned tables, `data_loader.py`) -/

/-- A processed `orders` row (after `clean_orders_data`: timestamps parsed,
`year`/`month` derived from the purchase timestamp). -/
structure OrderRow where
  order_id : String
  customer_id : String
  order_status : String
  order_purchase_timestamp : ℤ
  order_delivered_customer_date : Option ℤ
  year : ℤ
  month : ℤ
deriving DecidableEq

/-- A processed `order_items` row (`order_id`, `order_item_id`, `product_id`,
`price`, `freight_value`), the columns `create_sales_dataset` selects. -/
structure OrderItemRow where
  order_id : String
  order_item_id : ℤ
  product_id : String
  price : ℚ
  freight_value : ℚ
deriving DecidableEq

/-- A `products` row restricted to the columns used by the sales view. -/
structure ProductRow where
  product_id : String
  product_category_name : Option String
deriving DecidableEq

/-- A `customers` row restricted to the columns used by the sales view. -/
structure CustomerRow where
  customer_id : String
  customer_state : String
  customer_city : String
deriving DecidableEq

/-- A `reviews` row restricted to the columns used by the sales view. -/
structure ReviewRow where
  order_id : String
  review_score : ℚ
deriving DecidableEq

/-- The processed tables consumed by `create_sales_dataset`. -/
structure Tables where
  order_items : List OrderItemRow
  orders : List OrderRow
  products : List ProductRow
  customers : List CustomerRow
  reviews : List ReviewRow
deriving DecidableEq

/-! ## The sales view (`create_sales_dataset`) -/

/-- One row of the denormalized sales view.  Fields contributed by a join are
`Option`-valued: an unmatched left row keeps `none` there (pandas null fill). -/
structure SalesRecord where
  order_id : String
  order_item_id : ℤ
  product_id : String
  price : ℚ
  freight_value : ℚ
  customer_id : Option String
  order_status : Option String
  order_purchase_timestamp : Option ℤ
  order_delivered_customer_date : Option ℤ
  year : Option ℤ
  month : Option ℤ
  product_category_name : Option String
  customer_state : Option String
  customer_city : Option String
  review_score : Option ℚ
  delivery_days : Option ℤ
deriving DecidableEq

/-- An order-item row widened to a sales record: every joined column null. -/
def initRecord (it : OrderItemRow) : SalesRecord :=
  { order_id := it.order_id
    order_item_id := it.order_item_id
    product_id := it.product_id
    price := it.price
    freight_value := it.freight_value
    customer_id := none
    order_status := none
    order_purchase_timestamp := none
    order_delivered_customer_date := none
    year := none
    month := none
    product_category_name := none
    customer_state := none
    customer_city := none
    review_score := none
    delivery_days := none }

/-- `pd.merge(xs, ys, how='left')`: each left row is kept; with no key match it
appears once, null-filled (`fill x none`); with k matches it fans out into k
combined rows. -/
def leftJoin {β : Type} (xs : List SalesRecord) (ys : List β)
    (keyMatch : SalesRecord → β → Bool)
    (fill : SalesRecord → Option β → SalesRecord) : List SalesRecord :=
  xs.flatMap fun x =>
    let m := ys.filter (keyMatch x)
    if m.isEmpty then [fill x none] else m.map fun y => fill x (some y)

/-- Fill order columns into a sales record (merge with `orders`). -/
def withOrder (x : SalesRecord) : Option OrderRow → SalesRecord
  | none => x
  | some o =>
    { x with
      customer_id := some o.customer_id
      order_status := some o.order_status
      order_purchase_timestamp := some o.order_purchase_timestamp
      order_delivered_customer_date := o.order_delivered_customer_date
      year := some o.year
      month := some o.month }

/-- Fill the product category (merge with `products`). -/
def withProduct (x : SalesRecord) : Option ProductRow → SalesRecord
  | none => x
  | some p => { x with product_category_name := p.product_category_name }

/-- Fill customer state/city (merge with `customers`). -/
def withCustomer (x : SalesRecord) : Option CustomerRow → SalesRecord
  | none => x
  | some c =>
    { x with customer_state := some c.customer_state
             customer_city := some c.customer_city }

/-- Fill the review score (merge with `reviews`). -/
def withReview (x : SalesRecord) : Option ReviewRow → SalesRecord
  | none => x
  | some r => { x with review_score := some r.review_score }

/-- Steps 1–3 of `create_sales_dataset`: order items widened, merged with
orders, then the status/year/month filters.  `none` filter arguments model
Python-falsy filter values (`None`, `''`, `0`), which skip the filter. -/
def filteredBase (t : Tables) (year_filter month_filter : Option ℤ)
    (status_filter : Option String) : List SalesRecord :=
  let sales := t.order_items.map initRecord
  let sales := leftJoin sales t.orders (fun x o => x.order_id == o.order_id) withOrder
  let sales := match status_filter with
    | none => sales
    | some st => sales.filter fun x => x.order_status == some st
  let sales := match year_filter with
    | none => sales
    | some y => sales.filter fun x => x.year == some y
  match month_filter with
  | none => sales
  | some m => sales.filter fun x => x.month == some m

/-- `delivery_days = (order_delivered_customer_date -
order_purchase_timestamp).dt.days`; null when either timestamp is null. -/
def addDelivery (x : SalesRecord) : SalesRecord :=
  { x with delivery_days :=
      match x.order_delivered_customer_date, x.order_purchase_timestamp with
      | some d, some p => some (d - p)
      | _, _ => none }

/-- `EcommerceDataLoader.create_sales_dataset`: filtered order-item base, then
left joins with products, customers and reviews, then `delivery_days`. -/
def create_sales_dataset (t : Tables) (year_filter month_filter : Option ℤ)
    (status_filter : Option String) : List SalesRecord :=
  let sales := filteredBase t year_filter month_filter status_filter
  let sales := leftJoin sales t.products
    (fun x p => x.product_id == p.product_id) withProduct
  let sales := leftJoin sales t.customers
    (fun x c => x.customer_id == some c.customer_id) withCustomer
  let sales := leftJoin sales t.reviews
    (fun x r => x.order_id == r.order_id) withReview
  sales.map addDelivery

/-! ## Generic list helpers (mirroring pandas sum / mean / median / sort) -/

/-- Insert into a list, in front of the first element `le a b` holds for
(insertion-sort insertion step). -/
def insertBy {α : Type} (le : α → α → Bool) (a : α) : List α → List α
  | [] => [a]
  | b :: l => if le a b then a :: b :: l else b :: insertBy le a l

/-- Insertion sort, used where pandas sorts (group keys ascending, medians,
presentation order). -/
def sortBy {α : Type} (le : α → α → Bool) (l : List α) : List α :=
  l.foldr (insertBy le) []

/-- `Series.sum` over rationals. -/
def sumQ (l : List ℚ) : ℚ := l.sum

/-- `Series.mean`: sum divided by length.  (Defined value at `[]` is `0`;
pandas yields `NaN` there, and every use below is guarded by nonemptiness or a
hypothesis.) -/
def meanQ (l : List ℚ) : ℚ := l.sum / l.length

/-- `Series.median`: middle element of the sorted values, or the average of
the two middle elements for an even count. -/
def medianQ (l : List ℚ) : ℚ :=
  let s := sortBy (fun a b => a ≤ b) l
  if l.length % 2 = 1 then s.getD (l.length / 2) 0
  else (s.getD (l.length / 2 - 1) 0 + s.getD (l.length / 2) 0) / 2

/-- `sales_data['price'].sum()`. -/
def sumPrice (l : List SalesRecord) : ℚ := (l.map (·.price)).sum

/-- The distinct `order_id` values of a record set (`Series.nunique` /
group-by keys; `dedup` keeps one occurrence of each). -/
def orderIds (l : List SalesRecord) : List String := (l.map (·.order_id)).dedup

/-- `groupby('order_id')['price'].sum()`: one per-order price sum per distinct
`order_id`.  Group order is immaterial to every metric derived from it. -/
def orderTotals (l : List SalesRecord) : List ℚ :=
  (orderIds l).map fun oid => sumPrice (l.filter fun r => r.order_id == oid)

/-! ## Revenue metrics (`calculate_revenue_metrics`) -/

/-- The dictionary returned by `calculate_revenue_metrics`.  The growth fields
are `none` both when no comparison data was supplied (key absent) and when the
baseline guard failed (key mapped to Python `None`): the spec calls both
"absent". -/
structure RevenueMetrics where
  total_revenue : ℚ
  average_order_value : ℚ
  median_order_value : ℚ
  total_orders : ℕ
  total_items : ℕ
  avg_items_per_order : ℚ
  revenue_growth_pct : Option ℚ
  order_growth_pct : Option ℚ
  aov_growth_pct : Option ℚ
deriving DecidableEq

/-- The comparison-period AOV baseline
`comparison_data.groupby('order_id')['price'].sum().mean()`: `none` models the
`NaN` pandas produces on an empty comparison set (and `NaN > 0` is false, so
the growth guard fails there). -/
def prevAovOf (comp : List SalesRecord) : Option ℚ :=
  if comp.isEmpty then none else some (meanQ (orderTotals comp))

/-- `BusinessMetricsCalculator.calculate_revenue_metrics`.  The unguarded
`total_items / total_orders` at line 61 of `business_metrics.py` is an integer
division that raises `ZeroDivisionError` when there are no orders, before the
comparison block runs; that raise is the `Except.error` branch. -/
def calculate_revenue_metrics (sales : List SalesRecord)
    (comparison : Option (List SalesRecord)) : Except String RevenueMetrics :=
  let total_revenue := sumPrice sales
  let ot := orderTotals sales
  let total_orders := (orderIds sales).length
  let total_items := sales.length
  if total_orders = 0 then
    Except.error "ZeroDivisionError: division by zero"
  else
    let base : RevenueMetrics :=
      { total_revenue := total_revenue
        average_order_value := meanQ ot
        median_order_value := medianQ ot
        total_orders := total_orders
        total_items := total_items
        avg_items_per_order := (total_items : ℚ) / (total_orders : ℚ)
        revenue_growth_pct := none
        order_growth_pct := none
        aov_growth_pct := none }
    match comparison with
    | none => Except.ok base
    | some comp =>
      let prev_revenue := sumPrice comp
      let prev_orders := (orderIds comp).length
      Except.ok
        { base with
          revenue_growth_pct :=
            if 0 < prev_revenue then
              some ((total_revenue - prev_revenue) / prev_revenue * 100)
            else none
          order_growth_pct :=
            if 0 < prev_orders then
              some (((total_orders : ℚ) - (prev_orders : ℚ)) / (prev_orders : ℚ) * 100)
            else none
          aov_growth_pct :=
            match prevAovOf comp with
            | none => none
            | some a =>
              if 0 < a then some ((meanQ ot - a) / a * 100) else none }

/-! ## Sales frames and the dimension analyses -/

/-- A sales dataframe as the metric analyses see it: the rows plus the list of
optional dimension columns actually present (`month`,
`product_category_name`, `customer_state`, `review_score`, `delivery_days`).
The analyses consult `cols` exactly where the Python code consults
`sales_data.columns`. -/
structure SalesFrame where
  cols : List String
  rows : List SalesRecord
deriving DecidableEq

/-- A Python return value that is either real metrics or the *returned*
`{"error": reason}` soft-fail dictionary (not a raised exception). -/
inductive SoftResult (α : Type) where
  | errorMap (reason : String)
  | metrics (m : α)
deriving DecidableEq

/-- One row of the `calculate_monthly_trends` result frame. -/
structure MonthlyRow where
  month : ℤ
  revenue : ℚ
  orders : ℕ
  revenue_growth_pct : Option ℚ
  orders_growth_pct : Option ℚ
  avg_order_value : ℚ
deriving DecidableEq

/-- Build one trends row from a `(month, revenue, orders)` group and the
previous row's `(revenue, orders)`, mirroring `Series.pct_change`: the first
row has no predecessor (`NaN`, modelled `none`); a zero baseline yields a
non-finite float (`inf`/`NaN`), likewise modelled `none`. -/
def mkMonthlyRow (t : ℤ × ℚ × ℕ) (prev : Option (ℚ × ℕ)) : MonthlyRow :=
  { month := t.1
    revenue := t.2.1
    orders := t.2.2
    revenue_growth_pct :=
      match prev with
      | none => none
      | some pr => if pr.1 = 0 then none else some ((t.2.1 - pr.1) / pr.1 * 100)
    orders_growth_pct :=
      match prev with
      | none => none
      | some pr =>
        if pr.2 = 0 then none
        else some (((t.2.2 : ℚ) - (pr.2 : ℚ)) / (pr.2 : ℚ) * 100)
    avg_order_value := t.2.1 / (t.2.2 : ℚ) }

/-- Thread the previous group through the grouped list (`pct_change`). -/
def addGrowth : Option (ℚ × ℕ) → List (ℤ × ℚ × ℕ) → List MonthlyRow
  | _, [] => []
  | prev, t :: rest => mkMonthlyRow t prev :: addGrowth (some (t.2.1, t.2.2)) rest

/-- `BusinessMetricsCalculator.calculate_monthly_trends`: raises (`.error`)
when the `month` column is missing; otherwise groups by the months present
(pandas group keys are the distinct non-null `month` values, ascending), and
derives growth columns with `pct_change`. -/
def calculate_monthly_trends (f : SalesFrame) : Except String (List MonthlyRow) :=
  if "month" ∈ f.cols then
    let months := sortBy (fun a b : ℤ => a ≤ b) ((f.rows.filterMap (·.month)).dedup)
    let grouped := months.map fun m =>
      let sub := f.rows.filter fun r => r.month == some m
      (m, sumPrice sub, (sub.map (·.order_id)).dedup.length)
    Except.ok (addGrowth none grouped)
  else Except.error "Month column not found in sales data"

/-! ## Category and geography analyses -/

/-- One row of the `analyze_product_performance` result frame. -/
structure CategoryRow where
  category : String
  revenue : ℚ
  orders : ℕ
  items_sold : ℕ
  revenue_share_pct : ℚ
  avg_order_value : ℚ
deriving DecidableEq

/-- One row of the `analyze_geographic_performance` result frame. -/
structure StateRow where
  state : String
  revenue : ℚ
  orders : ℕ
  customers : ℕ
  revenue_share_pct : ℚ
  avg_order_value : ℚ
deriving DecidableEq

/-- The per-category groups of a frame: the distinct non-null categories (a
pandas group-by drops null keys) with `(category, Σ price, distinct orders,
item count)`.  Group order is immaterial: the result is re-sorted by revenue. -/
def categoryGroups (f : SalesFrame) : List (String × ℚ × ℕ × ℕ) :=
  ((f.rows.filterMap (·.product_category_name)).dedup).map fun c =>
    let sub := f.rows.filter fun r => r.product_category_name == some c
    (c, sumPrice sub, (sub.map (·.order_id)).dedup.length, sub.length)

/-- `category_metrics['revenue'].sum()`: the denominator of the revenue
shares (the summed revenue of the grouped frame). -/
def categoryGroupTotal (f : SalesFrame) : ℚ :=
  ((categoryGroups f).map fun g => g.2.1).sum

/-- `BusinessMetricsCalculator.analyze_product_performance`: raises when the
category column is missing; otherwise groups, derives shares and per-category
AOV, and sorts by revenue descending. -/
def analyze_product_performance (f : SalesFrame) : Except String (List CategoryRow) :=
  if "product_category_name" ∈ f.cols then
    let total_revenue := categoryGroupTotal f
    let rows := (categoryGroups f).map fun g =>
      { category := g.1
        revenue := g.2.1
        orders := g.2.2.1
        items_sold := g.2.2.2
        revenue_share_pct := g.2.1 / total_revenue * 100
        avg_order_value := g.2.1 / (g.2.2.1 : ℚ) : CategoryRow }
    Except.ok (sortBy (fun a b => b.revenue ≤ a.revenue) rows)
  else Except.error "Product category column not found in sales data"

/-- The per-state groups: distinct non-null states with `(state, Σ price,
distinct orders, distinct non-null customers)` (`nunique` skips nulls). -/
def stateGroups (f : SalesFrame) : List (String × ℚ × ℕ × ℕ) :=
  ((f.rows.filterMap (·.customer_state)).dedup).map fun s =>
    let sub := f.rows.filter fun r => r.customer_state == some s
    (s, sumPrice sub, (sub.map (·.order_id)).dedup.length,
      (sub.filterMap (·.customer_id)).dedup.length)

/-- The summed revenue of the grouped state frame (share denominator). -/
def stateGroupTotal (f : SalesFrame) : ℚ :=
  ((stateGroups f).map fun g => g.2.1).sum

/-- `BusinessMetricsCalculator.analyze_geographic_performance`: same shape as
the category analysis, grouped by `customer_state`. -/
def analyze_geographic_performance (f : SalesFrame) : Except String (List StateRow) :=
  if "customer_state" ∈ f.cols then
    let total_revenue := stateGroupTotal f
    let rows := (stateGroups f).map fun g =>
      { state := g.1
        revenue := g.2.1
        orders := g.2.2.1
        customers := g.2.2.2
        revenue_share_pct := g.2.1 / total_revenue * 100
        avg_order_value := g.2.1 / (g.2.2.1 : ℚ) : StateRow }
    Except.ok (sortBy (fun a b => b.revenue ≤ a.revenue) rows)
  else Except.error "Customer state column not found in sales data"

/-! ## Satisfaction analysis -/

/-- The metrics dictionary of `analyze_customer_satisfaction`. -/
structure SatisfactionMetrics where
  avg_review_score : ℚ
  median_review_score : ℚ
  total_reviews : ℕ
  score_distribution : List (ℚ × ℚ)
  high_satisfaction_pct : ℚ
deriving DecidableEq

/-- The de-duplicated `(order_id, review_score)` pairs
(`sales_data[['order_id', 'review_score']].drop_duplicates()`).  `dedup`
keeps one occurrence of each distinct pair; which occurrence survives is
immaterial, no metric depends on row order. -/
def reviewPairs (rows : List SalesRecord) : List (String × Option ℚ) :=
  (rows.map fun r => (r.order_id, r.review_score)).dedup

/-- `BusinessMetricsCalculator.analyze_customer_satisfaction`: a *returned*
`{"error": ...}` map when the score column is missing.  On an empty record
set the integer division `len(high_satisfaction) / len(reviews)` at line 221
raises `ZeroDivisionError` (the `.error` branch).  Mean, median and
`value_counts` skip null scores; `total_reviews` and the high-satisfaction
denominator count all de-duplicated pairs, null scores included. -/
def analyze_customer_satisfaction (f : SalesFrame) :
    Except String (SoftResult SatisfactionMetrics) :=
  if "review_score" ∈ f.cols then
    let reviews := reviewPairs f.rows
    if reviews.isEmpty then
      Except.error "ZeroDivisionError: division by zero"
    else
      let scores := reviews.filterMap (·.2)
      Except.ok (SoftResult.metrics
        { avg_review_score := meanQ scores
          median_review_score := medianQ scores
          total_reviews := reviews.length
          score_distribution :=
            (sortBy (fun a b => a ≤ b) scores.dedup).map fun s =>
              (s, ((scores.filter (· == s)).length : ℚ) / (scores.length : ℚ))
          high_satisfaction_pct :=
            (((reviews.filter fun p =>
                match p.2 with
                | some s => 4 ≤ s
                | none => False).length : ℚ) / (reviews.length : ℚ)) * 100 })
  else Except.ok (SoftResult.errorMap "Review score column not found")

/-! ## Delivery analysis -/

/-- The metrics dictionary of `analyze_delivery_performance`. -/
structure DeliveryMetrics where
  avg_delivery_days : ℚ
  median_delivery_days : ℚ
  delivery_category_distribution : List (String × ℚ)
  avg_review_by_delivery_speed : List (String × ℚ)
deriving DecidableEq

/-- `categorize_delivery_speed` (nested in `analyze_delivery_performance`):
`days <= 3` → `1-3 days`, `days <= 7` → `4-7 days`, else `8+ days`; a null
value would be labelled `Unknown` (unreachable after the `dropna`). -/
def categorize_delivery_speed : Option ℤ → String
  | none => "Unknown"
  | some d => if d ≤ 3 then "1-3 days" else if d ≤ 7 then "4-7 days" else "8+ days"

/-- The de-duplicated `(order_id, delivery_days, review_score)` triples after
`dropna(subset=['delivery_days'])`. -/
def deliveryTriples (rows : List SalesRecord) : List (String × Option ℤ × Option ℚ) :=
  ((rows.map fun r => (r.order_id, r.delivery_days, r.review_score)).dedup).filter
    fun t => t.2.1.isSome

/-- `BusinessMetricsCalculator.analyze_delivery_performance`: a *returned*
`{"error": ...}` map when `delivery_days` is missing; but when
`delivery_days` is present and `review_score` absent, the unconditional
column selection `sales_data[['order_id', 'delivery_days', 'review_score']]`
at line 237 raises `KeyError` — making the guard at line 268 dead code.
Means over empty selections (`NaN` in pandas) evaluate to `meanQ [] = 0`
here; no claim theorem depends on those spots. -/
def analyze_delivery_performance (f : SalesFrame) :
    Except String (SoftResult DeliveryMetrics) :=
  if "delivery_days" ∈ f.cols then
    if "review_score" ∈ f.cols then
      let dd := deliveryTriples f.rows
      let days := (dd.filterMap fun t => t.2.1).map fun d => (d : ℚ)
      let cats := dd.map fun t => categorize_delivery_speed t.2.1
      Except.ok (SoftResult.metrics
        { avg_delivery_days := meanQ days
          median_delivery_days := medianQ days
          delivery_category_distribution :=
            cats.dedup.map fun c =>
              (c, ((cats.filter (· == c)).length : ℚ) / (cats.length : ℚ))
          avg_review_by_delivery_speed :=
            cats.dedup.map fun c =>
              (c, meanQ ((dd.filter fun t =>
                    categorize_delivery_speed t.2.1 == c).filterMap fun t => t.2.2)) })
    else Except.error "KeyError: review_score not in index"
  else Except.ok (SoftResult.errorMap "Delivery days column not found")

/-! ## Data summary (`get_data_summary`) -/

/-- The loader's `processed_data` store: each table either cleaned (`some`)
or not yet present (`none`). -/
structure ProcessedData where
  orders : Option (List OrderRow)
  order_items : Option (List OrderItemRow)
  products : Option (List ProductRow)
  customers : Option (List CustomerRow)
  reviews : Option (List ReviewRow)
deriving DecidableEq

/-- `if not self.processed_data:` — the store holds no table at all. -/
def ProcessedData.isEmpty (pd : ProcessedData) : Bool :=
  pd.orders.isNone && pd.order_items.isNone && pd.products.isNone &&
    pd.customers.isNone && pd.reviews.isNone

/-- The summary dictionary: each section `none` when its table is absent
(the Python dict simply omits those keys). -/
structure DataSummary where
  total_orders : Option ℕ
  date_range : Option (Option ℤ × Option ℤ)
  years_available : Option (List ℤ)
  order_statuses : Option (List (String × ℕ))
  total_products : Option ℕ
  product_categories : Option ℕ
  total_customers : Option ℕ
  states : Option ℕ
deriving DecidableEq

/-- The result of `get_data_summary`: the `{"error": "No data loaded yet"}`
marker or a populated summary. -/
inductive SummaryResult where
  | error (msg : String)
  | summary (s : DataSummary)
deriving DecidableEq

/-- `EcommerceDataLoader.get_data_summary`. -/
def get_data_summary (pd : ProcessedData) : SummaryResult :=
  if pd.isEmpty then SummaryResult.error "No data loaded yet"
  else SummaryResult.summary
    { total_orders := pd.orders.map List.length
      date_range := pd.orders.map fun l =>
        ((l.map (·.order_purchase_timestamp)).min?,
         (l.map (·.order_purchase_timestamp)).max?)
      years_available := pd.orders.map fun l =>
        sortBy (fun a b : ℤ => a ≤ b) ((l.map (·.year)).dedup)
      order_statuses := pd.orders.map fun l =>
        ((l.map (·.order_status)).dedup).map fun s =>
          (s, (l.filter fun o => o.order_status == s).length)
      total_products := pd.products.map List.length
      product_categories := pd.products.map fun l =>
        (l.filterMap (·.product_category_name)).dedup.length
      total_customers := pd.customers.map List.length
      states := pd.customers.map fun l =>
        (l.map (·.customer_state)).dedup.length }

/-! ## Helper lemmas: insertion sort -/

theorem mem_insertBy {α : Type} (le : α → α → Bool) (a x : α) :
    ∀ l : List α, x ∈ insertBy le a l ↔ x = a ∨ x ∈ l := by
  intro l
  induction l with
  | nil => simp [insertBy]
  | cons b t ih =>
    by_cases h : le a b = true
    · simp [insertBy, h]
    · simp only [insertBy, h, if_neg, Bool.not_eq_true] at *
      simp [List.mem_cons, ih]
      tauto

theorem mem_sortBy {α : Type} (le : α → α → Bool) (x : α) :
    ∀ l : List α, x ∈ sortBy le l ↔ x ∈ l := by
  intro l
  induction l with
  | nil => simp [sortBy]
  | cons b t ih =>
    simp only [sortBy, List.foldr_cons] at *
    rw [mem_insertBy, ih, List.mem_cons]

theorem map_sum_insertBy {α : Type} (le : α → α → Bool) (g : α → ℚ) (a : α) :
    ∀ l : List α, ((insertBy le a l).map g).sum = g a + (l.map g).sum := by
  intro l
  induction l with
  | nil => simp [insertBy]
  | cons b t ih =>
    by_cases h : le a b = true
    · simp [insertBy, h]
    · simp only [insertBy, h, if_neg, Bool.not_eq_true, List.map_cons, List.sum_cons, ih]
      ring

theorem map_sum_sortBy {α : Type} (le : α → α → Bool) (g : α → ℚ) :
    ∀ l : List α, ((sortBy le l).map g).sum = (l.map g).sum := by
  intro l
  induction l with
  | nil => rfl
  | cons b t ih =>
    simp only [sortBy, List.foldr_cons] at *
    rw [map_sum_insertBy, ih, List.map_cons, List.sum_cons]

theorem sorted_insertBy_int (a : ℤ) :
    ∀ l : List ℤ, l.Sorted (· < ·) → a ∉ l →
      (insertBy (fun x y : ℤ => x ≤ y) a l).Sorted (· < ·) := by
  intro l
  induction l with
  | nil => intro _ _; simp [insertBy]
  | cons b t ih =>
    intro hs ha
    rw [List.sorted_cons] at hs
    by_cases h : a ≤ b
    · have hab : a < b := lt_of_le_of_ne h (by simp at ha; exact ha.1)
      have hd : decide (a ≤ b) = true := by simpa using h
      rw [insertBy, hd, if_pos rfl, List.sorted_cons]
      refine ⟨?_, List.sorted_cons.2 hs⟩
      intro c hc
      rcases List.mem_cons.1 hc with rfl | hct
      · exact hab
      · exact lt_trans hab (hs.1 c hct)
    · have hba : b < a := lt_of_not_le h
      have hd : decide (a ≤ b) = false := by simpa using h
      rw [insertBy, hd, if_neg (by simp), List.sorted_cons]
      refine ⟨?_, ih hs.2 (by simp at ha; exact fun hq => ha.2 hq)⟩
      intro c hc
      rcases (mem_insertBy _ _ _ _).1 hc with rfl | hct
      · exact hba
      · exact hs.1 c hct

theorem sorted_sortBy_int :
    ∀ l : List ℤ, l.Nodup → (sortBy (fun x y : ℤ => x ≤ y) l).Sorted (· < ·) := by
  intro l
  induction l with
  | nil => intro _; simp [sortBy]
  | cons b t ih =>
    intro hn
    rw [List.nodup_cons] at hn
    simp only [sortBy, List.foldr_cons]
    exact sorted_insertBy_int b _ (ih hn.2) (fun hb => hn.1 ((mem_sortBy _ _ _).1 hb))

/-! ## Helper lemmas: sums and joins -/

theorem sumPrice_append_cons (l1 l2 : List SalesRecord) (y : SalesRecord) :
    sumPrice (l1 ++ y :: l2) = sumPrice l1 + y.price + sumPrice l2 := by
  simp [sumPrice]
  ring

theorem leftJoin_append {β : Type} (xs ys : List SalesRecord) (zs : List β)
    (km : SalesRecord → β → Bool) (fill : SalesRecord → Option β → SalesRecord) :
    leftJoin (xs ++ ys) zs km fill = leftJoin xs zs km fill ++ leftJoin ys zs km fill := by
  simp [leftJoin]

theorem leftJoin_nomatch {β : Type} (x : SalesRecord) (zs : List β)
    (km : SalesRecord → β → Bool) (fill : SalesRecord → Option β → SalesRecord)
    (h : zs.filter (km x) = []) :
    leftJoin [x] zs km fill = [fill x none] := by
  unfold leftJoin
  rw [List.flatMap_cons, List.flatMap_nil]
  simp [h, List.isEmpty_nil]

theorem mem_leftJoin {β : Type} {y : SalesRecord} {xs : List SalesRecord}
    {zs : List β} {km : SalesRecord → β → Bool}
    {fill : SalesRecord → Option β → SalesRecord}
    (hy : y ∈ leftJoin xs zs km fill) :
    ∃ x ∈ xs, y = fill x none ∨ ∃ b, y = fill x (some b) := by
  rcases List.mem_flatMap.1 hy with ⟨x, hx, hyx⟩
  refine ⟨x, hx, ?_⟩
  by_cases he : (zs.filter (km x)).isEmpty
  · simp only [he, if_true] at hyx
    exact Or.inl (List.mem_singleton.1 hyx)
  · simp only [he, if_false, Bool.false_eq_true] at hyx
    rcases List.mem_map.1 hyx with ⟨b, _, hb⟩
    exact Or.inr ⟨b, hb.symm⟩

/-- Splitting a left join around a left row with no key match: the row passes
through null-filled (and `fill x none = x` when its joined fields are already
null). -/
theorem leftJoin_split {β : Type} (a b : List SalesRecord) (x : SalesRecord)
    (zs : List β) (km : SalesRecord → β → Bool)
    (fill : SalesRecord → Option β → SalesRecord)
    (h : zs.filter (km x) = []) (hfx : fill x none = x) :
    leftJoin (a ++ x :: b) zs km fill =
      leftJoin a zs km fill ++ x :: leftJoin b zs km fill := by
  have e0 : a ++ x :: b = (a ++ [x]) ++ b := by simp
  rw [e0, leftJoin_append, leftJoin_append, leftJoin_nomatch _ _ _ _ h, hfx]
  simp

theorem withOrder_dims (x : SalesRecord) (o : Option OrderRow) :
    (withOrder x o).product_category_name = x.product_category_name ∧
    (withOrder x o).customer_state = x.customer_state ∧
    (withOrder x o).customer_city = x.customer_city ∧
    (withOrder x o).review_score = x.review_score := by
  cases o <;> simp [withOrder]

/-- Every row of the filtered base comes from the order-items/orders join. -/
theorem filteredBase_subset (t : Tables) (yf mf : Option ℤ) (sf : Option String)
    (x : SalesRecord) (hx : x ∈ filteredBase t yf mf sf) :
    x ∈ leftJoin (t.order_items.map initRecord) t.orders
      (fun s o => s.order_id == o.order_id) withOrder := by
  unfold filteredBase at hx
  rcases mf with _ | m <;> rcases yf with _ | yv <;> rcases sf with _ | st <;>
    repeat (first | exact hx | replace hx := (List.mem_filter.1 hx).1)

/-- Rows of the filtered base still have every dimension joined later null. -/
theorem filteredBase_dims (t : Tables) (yf mf : Option ℤ) (sf : Option String)
    (x : SalesRecord) (hx : x ∈ filteredBase t yf mf sf) :
    x.product_category_name = none ∧ x.customer_state = none ∧
    x.customer_city = none ∧ x.review_score = none := by
  have h := filteredBase_subset t yf mf sf x hx
  rcases mem_leftJoin h with ⟨y, hy, hcase⟩
  rcases List.mem_map.1 hy with ⟨it, _, rfl⟩
  have hw := withOrder_dims (initRecord it)
  rcases hcase with rfl | ⟨o, rfl⟩
  · simp [withOrder, initRecord]
  · rcases hw (some o) with ⟨h1, h2, h3, h4⟩
    rw [h1, h2, h3, h4]
    simp [initRecord]

/-- C1 (invariants): the product/customer/review left joins of
`create_sales_dataset` never drop a row of the (filtered) order-items base.  A
base row `x` with no matching product, customer or review row appears in the
sales view with null `product_category_name`, `customer_state`,
`customer_city` and `review_score`, its order-item columns intact, and its
`price` is a summand of the view's total revenue
(`sumPrice`, the `total_revenue` of `calculate_revenue_metrics`). -/
theorem C1_left_join_non_loss (t : Tables) (yf mf : Option ℤ) (sf : Option String)
    (x : SalesRecord) (hx : x ∈ filteredBase t yf mf sf)
    (hp : ∀ p ∈ t.products, x.product_id ≠ p.product_id)
    (hc : ∀ c ∈ t.customers, x.customer_id ≠ some c.customer_id)
    (hr : ∀ r ∈ t.reviews, x.order_id ≠ r.order_id) :
    ∃ y l1 l2,
      create_sales_dataset t yf mf sf = l1 ++ y :: l2 ∧
      y.order_id = x.order_id ∧ y.order_item_id = x.order_item_id ∧
      y.product_id = x.product_id ∧ y.price = x.price ∧
      y.freight_value = x.freight_value ∧
      y.product_category_name = none ∧ y.customer_state = none ∧
      y.customer_city = none ∧ y.review_score = none ∧
      sumPrice (create_sales_dataset t yf mf sf) =
        sumPrice l1 + x.price + sumPrice l2 := by
  obtain ⟨a, b, hab⟩ := List.append_of_mem hx
  have hfp : t.products.filter (fun p => x.product_id == p.product_id) = [] :=
    List.filter_eq_nil_iff.2 (fun p hp2 => by simpa using hp p hp2)
  have hfc : t.customers.filter (fun c => x.customer_id == some c.customer_id) = [] :=
    List.filter_eq_nil_iff.2 (fun c hc2 => by simpa using hc c hc2)
  have hfr : t.reviews.filter (fun r => x.order_id == r.order_id) = [] :=
    List.filter_eq_nil_iff.2 (fun r hr2 => by simpa using hr r hr2)
  obtain ⟨hd1, hd2, hd3, hd4⟩ := filteredBase_dims t yf mf sf x hx
  have hchain : create_sales_dataset t yf mf sf =
      ((leftJoin (leftJoin (leftJoin a t.products
          (fun s p => s.product_id == p.product_id) withProduct) t.customers
          (fun s c => s.customer_id == some c.customer_id) withCustomer) t.reviews
          (fun s r => s.order_id == r.order_id) withReview).map addDelivery)
        ++ addDelivery x ::
      ((leftJoin (leftJoin (leftJoin b t.products
          (fun s p => s.product_id == p.product_id) withProduct) t.customers
          (fun s c => s.customer_id == some c.customer_id) withCustomer) t.reviews
          (fun s r => s.order_id == r.order_id) withReview).map addDelivery) := by
    simp only [create_sales_dataset]
    rw [hab]
    rw [leftJoin_split a b x _ _ _ hfp rfl]
    rw [leftJoin_split _ _ x _ _ _ hfc rfl]
    rw [leftJoin_split _ _ x _ _ _ hfr rfl]
    rw [List.map_append, List.map_cons]
  refine ⟨addDelivery x, _, _, hchain, ?_, ?_, ?_, ?_, ?_, ?_, ?_, ?_, ?_, ?_⟩
  · simp [addDelivery]
  · simp [addDelivery]
  · simp [addDelivery]
  · simp [addDelivery]
  · simp [addDelivery]
  · simp [addDelivery, hd1]
  · simp [addDelivery, hd2]
  · simp [addDelivery, hd3]
  · simp [addDelivery, hd4]
  · rw [hchain, sumPrice_append_cons]
    simp [addDelivery]

/-- Concrete tables for the C1 witness: one delivered order item whose
product, customer and review have no matching dimension rows. -/
def tablesW : Tables :=
  { order_items := [{ order_id := "O1", order_item_id := 1, product_id := "P1",
                      price := 100, freight_value := 10 }]
    orders := [{ order_id := "O1", customer_id := "CU1", order_status := "delivered",
                 order_purchase_timestamp := 10,
                 order_delivered_customer_date := some 14, year := 2023, month := 1 }]
    products := []
    customers := []
    reviews := [] }

/-- The single filtered-base row of `tablesW`. -/
def xW : SalesRecord :=
  withOrder (initRecord
    { order_id := "O1", order_item_id := 1, product_id := "P1",
      price := 100, freight_value := 10 })
    (some { order_id := "O1", customer_id := "CU1", order_status := "delivered",
            order_purchase_timestamp := 10,
            order_delivered_customer_date := some 14, year := 2023, month := 1 })

/-- Witness for C1 at `tablesW`. -/
theorem C1_left_join_non_loss_witness :
    ∃ y l1 l2,
      create_sales_dataset tablesW none none (some "delivered") = l1 ++ y :: l2 ∧
      y.order_id = xW.order_id ∧ y.order_item_id = xW.order_item_id ∧
      y.product_id = xW.product_id ∧ y.price = xW.price ∧
      y.freight_value = xW.freight_value ∧
      y.product_category_name = none ∧ y.customer_state = none ∧
      y.customer_city = none ∧ y.review_score = none ∧
      sumPrice (create_sales_dataset tablesW none none (some "delivered")) =
        sumPrice l1 + xW.price + sumPrice l2 :=
  C1_left_join_non_loss tablesW none none (some "delivered") xW
    (by decide) (by decide) (by decide) (by decide)

/-! ## Revenue metrics lemmas and claims C2–C4 -/

theorem orderIds_length_pos (l : List SalesRecord) (h : l ≠ []) :
    0 < (orderIds l).length := by
  rcases l with _ | ⟨r, t⟩
  · exact absurd rfl h
  · have hm : r.order_id ∈ orderIds (r :: t) := List.mem_dedup.2 (by simp)
    exact List.length_pos.2 (List.ne_nil_of_mem hm)

/-- C2 (functional correctness): on every non-empty sales record set,
`calculate_revenue_metrics` returns `total_revenue = Σ price` over all records
(freight excluded), `average_order_value`/`median_order_value` the mean and
median of the per-order price sums (one value per distinct `order_id`),
`total_orders` the distinct `order_id` count and `total_items` the record
count.  (On the empty set the function raises before returning — see the C3
theorem.) -/
theorem C2_revenue_metrics (sales : List SalesRecord)
    (comparison : Option (List SalesRecord)) (h : sales ≠ []) :
    ∃ m, calculate_revenue_metrics sales comparison = Except.ok m ∧
      m.total_revenue = (sales.map (·.price)).sum ∧
      m.average_order_value = meanQ (orderTotals sales) ∧
      m.median_order_value = medianQ (orderTotals sales) ∧
      m.total_orders = (sales.map (·.order_id)).dedup.length ∧
      m.total_items = sales.length := by
  have hno : ¬ (orderIds sales).length = 0 :=
    Nat.pos_iff_ne_zero.1 (orderIds_length_pos sales h)
  unfold calculate_revenue_metrics
  rw [if_neg hno]
  cases comparison with
  | none => exact ⟨_, rfl, rfl, rfl, rfl, rfl, rfl⟩
  | some comp => exact ⟨_, rfl, rfl, rfl, rfl, rfl, rfl⟩

/-- A one-row sales set for witnesses. -/
def srW : SalesRecord :=
  initRecord { order_id := "O1", order_item_id := 1, product_id := "P1",
               price := 5, freight_value := 1 }

/-- Witness for C2 at a one-record sales set. -/
theorem C2_revenue_metrics_witness :
    ∃ m, calculate_revenue_metrics [srW] none = Except.ok m ∧
      m.total_revenue = ([srW].map (·.price)).sum ∧
      m.average_order_value = meanQ (orderTotals [srW]) ∧
      m.median_order_value = medianQ (orderTotals [srW]) ∧
      m.total_orders = ([srW].map (·.order_id)).dedup.length ∧
      m.total_items = [srW].length :=
  C2_revenue_metrics [srW] none (by decide)

/-- C3 (safety, code bug): the claim's positive half holds — whenever
`calculate_revenue_metrics` returns, `avg_items_per_order` is exactly
`total_items / total_orders` with `total_orders > 0` — but the division is
*not* guarded: on an empty sales record set (`total_orders = 0`) the integer
division `total_items / total_orders` at `business_metrics.py:61` raises
`ZeroDivisionError` instead of reporting the metric as absent. -/
theorem C3_avg_items_guard :
    (∀ (sales : List SalesRecord) (comparison : Option (List SalesRecord))
        (m : RevenueMetrics),
      calculate_revenue_metrics sales comparison = Except.ok m →
        m.avg_items_per_order = (m.total_items : ℚ) / (m.total_orders : ℚ) ∧
        0 < m.total_orders) ∧
    calculate_revenue_metrics [] none =
      Except.error "ZeroDivisionError: division by zero" := by
  constructor
  · intro sales comparison m hm
    unfold calculate_revenue_metrics at hm
    by_cases h0 : (orderIds sales).length = 0
    · rw [if_pos h0] at hm
      exact absurd hm (by simp)
    · rw [if_neg h0] at hm
      cases comparison with
      | none =>
        injection hm with hm
        subst hm
        exact ⟨rfl, Nat.pos_of_ne_zero h0⟩
      | some comp =>
        injection hm with hm
        subst hm
        exact ⟨rfl, Nat.pos_of_ne_zero h0⟩
  · rfl

/-- The metrics record returned for the one-row set `[srW]`, written with its
defining expressions so that the evaluation of `calculate_revenue_metrics` on
`[srW]` is definitional. -/
def mW : RevenueMetrics :=
  { total_revenue := sumPrice [srW]
    average_order_value := meanQ (orderTotals [srW])
    median_order_value := medianQ (orderTotals [srW])
    total_orders := (orderIds [srW]).length
    total_items := [srW].length
    avg_items_per_order := (([srW].length : ℕ) : ℚ) / (((orderIds [srW]).length : ℕ) : ℚ)
    revenue_growth_pct := none
    order_growth_pct := none
    aov_growth_pct := none }

/-- Witness for the hypothesis-bearing half of C3. -/
theorem C3_avg_items_guard_witness :
    mW.avg_items_per_order = (mW.total_items : ℚ) / (mW.total_orders : ℚ) ∧
    0 < mW.total_orders :=
  C3_avg_items_guard.1 [srW] none mW (by rfl)

/-- C4 (error handling): each growth percentage is absent exactly when its
baseline fails the `> 0` guard.  The revenue baseline is `Σ price` of the
comparison set, the order baseline its distinct-order count, and the AOV
baseline its mean per-order sum (`none` models the `NaN` mean of an empty
comparison set, on which the `NaN > 0` guard also fails); a passing baseline
yields `(current − previous) / previous × 100`. -/
theorem C4_growth_guards (cur comp : List SalesRecord) (h : cur ≠ []) :
    ∃ m, calculate_revenue_metrics cur (some comp) = Except.ok m ∧
      (sumPrice comp ≤ 0 → m.revenue_growth_pct = none) ∧
      (0 < sumPrice comp →
        m.revenue_growth_pct =
          some ((m.total_revenue - sumPrice comp) / sumPrice comp * 100)) ∧
      ((orderIds comp).length = 0 → m.order_growth_pct = none) ∧
      (0 < (orderIds comp).length →
        m.order_growth_pct =
          some (((m.total_orders : ℚ) - ((orderIds comp).length : ℚ)) /
            ((orderIds comp).length : ℚ) * 100)) ∧
      (prevAovOf comp = none → m.aov_growth_pct = none) ∧
      (∀ a, prevAovOf comp = some a → a ≤ 0 → m.aov_growth_pct = none) ∧
      (∀ a, prevAovOf comp = some a → 0 < a →
        m.aov_growth_pct = some ((m.average_order_value - a) / a * 100)) := by
  have hno : ¬ (orderIds cur).length = 0 :=
    Nat.pos_iff_ne_zero.1 (orderIds_length_pos cur h)
  unfold calculate_revenue_metrics
  rw [if_neg hno]
  refine ⟨_, rfl, ?_, ?_, ?_, ?_, ?_, ?_, ?_⟩
  · intro hle
    simp only []
    rw [if_neg (not_lt.2 hle)]
  · intro hpos
    simp only []
    rw [if_pos hpos]
  · intro h0
    simp only []
    rw [if_neg (by omega)]
  · intro hpos
    simp only []
    rw [if_pos hpos]
  · intro ha
    simp only [ha]
  · intro a ha hle
    simp only [ha]
    rw [if_neg (not_lt.2 hle)]
  · intro a ha hpos
    simp only [ha]
    rw [if_pos hpos]

/-- A one-row comparison set for the C4 witness (positive baselines). -/
def srB : SalesRecord :=
  initRecord { order_id := "O2", order_item_id := 1, product_id := "P2",
               price := 4, freight_value := 0 }

/-- Witness for C4 at a one-record current and comparison set. -/
theorem C4_growth_guards_witness :
    ∃ m, calculate_revenue_metrics [srW] (some [srB]) = Except.ok m ∧
      (sumPrice [srB] ≤ 0 → m.revenue_growth_pct = none) ∧
      (0 < sumPrice [srB] →
        m.revenue_growth_pct =
          some ((m.total_revenue - sumPrice [srB]) / sumPrice [srB] * 100)) ∧
      ((orderIds [srB]).length = 0 → m.order_growth_pct = none) ∧
      (0 < (orderIds [srB]).length →
        m.order_growth_pct =
          some (((m.total_orders : ℚ) - ((orderIds [srB]).length : ℚ)) /
            ((orderIds [srB]).length : ℚ) * 100)) ∧
      (prevAovOf [srB] = none → m.aov_growth_pct = none) ∧
      (∀ a, prevAovOf [srB] = some a → a ≤ 0 → m.aov_growth_pct = none) ∧
      (∀ a, prevAovOf [srB] = some a → 0 < a →
        m.aov_growth_pct = some ((m.average_order_value - a) / a * 100)) :=
  C4_growth_guards [srW] [srB] (by decide)

/-! ## Claim C5: raise vs. soft-fail asymmetry -/

/-- C5 (error handling, code bug): the trend/category/geography analyses
raise (`Except.error`) when their dimension column is missing, while the
satisfaction analysis returns the soft `{"error": ...}` map for a missing
`review_score` and the delivery analysis returns it for a missing
`delivery_days`.  However, the delivery analysis is *not* raise-free on a
missing required column: with `delivery_days` present and `review_score`
absent, its unconditional selection of `review_score`
(`business_metrics.py:237`) raises `KeyError` — contradicting the dead
`'review_score' in delivery_data.columns` guard at line 268 and the claimed
soft-fail behaviour. -/
theorem C5_error_asymmetry :
    ∀ f : SalesFrame,
      ("month" ∉ f.cols →
        calculate_monthly_trends f =
          Except.error "Month column not found in sales data") ∧
      ("product_category_name" ∉ f.cols →
        analyze_product_performance f =
          Except.error "Product category column not found in sales data") ∧
      ("customer_state" ∉ f.cols →
        analyze_geographic_performance f =
          Except.error "Customer state column not found in sales data") ∧
      ("review_score" ∉ f.cols →
        analyze_customer_satisfaction f =
          Except.ok (SoftResult.errorMap "Review score column not found")) ∧
      ("delivery_days" ∉ f.cols →
        analyze_delivery_performance f =
          Except.ok (SoftResult.errorMap "Delivery days column not found")) ∧
      ("delivery_days" ∈ f.cols → "review_score" ∉ f.cols →
        analyze_delivery_performance f =
          Except.error "KeyError: review_score not in index") := by
  intro f
  refine ⟨?_, ?_, ?_, ?_, ?_, ?_⟩
  · intro h
    unfold calculate_monthly_trends
    rw [if_neg h]
  · intro h
    unfold analyze_product_performance
    rw [if_neg h]
  · intro h
    unfold analyze_geographic_performance
    rw [if_neg h]
  · intro h
    unfold analyze_customer_satisfaction
    rw [if_neg h]
  · intro h
    unfold analyze_delivery_performance
    rw [if_neg h]
  · intro h1 h2
    unfold analyze_delivery_performance
    rw [if_pos h1, if_neg h2]

/-- A frame with no optional dimension column. -/
def fNoCols : SalesFrame := { cols := [], rows := [] }

/-- A frame with `delivery_days` present but `review_score` absent. -/
def fDelivOnly : SalesFrame := { cols := ["delivery_days"], rows := [] }

/-- Witness for C5 at concrete frames, including the `KeyError` raise. -/
theorem C5_error_asymmetry_witness :
    calculate_monthly_trends fNoCols =
      Except.error "Month column not found in sales data" ∧
    analyze_product_performance fNoCols =
      Except.error "Product category column not found in sales data" ∧
    analyze_geographic_performance fNoCols =
      Except.error "Customer state column not found in sales data" ∧
    analyze_customer_satisfaction fNoCols =
      Except.ok (SoftResult.errorMap "Review score column not found") ∧
    analyze_delivery_performance fNoCols =
      Except.ok (SoftResult.errorMap "Delivery days column not found") ∧
    analyze_delivery_performance fDelivOnly =
      Except.error "KeyError: review_score not in index" :=
  ⟨(C5_error_asymmetry fNoCols).1 (by decide),
   (C5_error_asymmetry fNoCols).2.1 (by decide),
   (C5_error_asymmetry fNoCols).2.2.1 (by decide),
   (C5_error_asymmetry fNoCols).2.2.2.1 (by decide),
   (C5_error_asymmetry fNoCols).2.2.2.2.1 (by decide),
   (C5_error_asymmetry fDelivOnly).2.2.2.2.2 (by decide) (by decide)⟩

/-! ## Claim C6: satisfaction de-duplication -/

/-- An item row of order `O1` with review score 5. -/
def rC6a : SalesRecord :=
  { initRecord { order_id := "O1", order_item_id := 1, product_id := "P1",
                 price := 10, freight_value := 1 } with review_score := some 5 }

/-- A second item row of the same order `O1` with a *different* score 1
(the review-join fan-out the spec itself warns about). -/
def rC6b : SalesRecord :=
  { initRecord { order_id := "O1", order_item_id := 2, product_id := "P2",
                 price := 20, freight_value := 2 } with review_score := some 1 }

/-- A second item row of order `O1` with the *same* score 5 as `rC6a`. -/
def rC6c : SalesRecord :=
  { initRecord { order_id := "O1", order_item_id := 2, product_id := "P2",
                 price := 20, freight_value := 2 } with review_score := some 5 }

/-- C6 counterexample: the de-duplication is to distinct
`(order_id, review_score)` *pairs*, not to one pair per *order*.  One order
carrying two distinct scores yields `total_reviews = 2` although only one
distinct `order_id` is present, so the order is counted twice in
`total_reviews` and in the mean. -/
theorem C6_dedup_counterexample :
    ∃ m, analyze_customer_satisfaction
        { cols := ["review_score"], rows := [rC6a, rC6b] } =
        Except.ok (SoftResult.metrics m) ∧
      m.total_reviews = 2 ∧
      (([rC6a, rC6b].map (·.order_id)).dedup).length = 1 := by
  refine ⟨_, rfl, ?_, ?_⟩
  · decide
  · decide

/-- C6 as amended: `analyze_customer_satisfaction` de-duplicates to the
distinct `(order_id, review_score)` pairs before computing every metric, so
two records carrying an identical `(order_id, review_score)` pair contribute
exactly once: dropping the duplicate record leaves the entire analysis
unchanged (hence `total_reviews`, the mean, the median, the distribution and
`high_satisfaction_pct` all count the pair once). -/
theorem C6_dedup_pairs (cols : List String) (r1 r2 : SalesRecord)
    (rest : List SalesRecord)
    (hp : (r1.order_id, r1.review_score) = (r2.order_id, r2.review_score)) :
    analyze_customer_satisfaction { cols := cols, rows := r1 :: r2 :: rest } =
      analyze_customer_satisfaction { cols := cols, rows := r1 :: rest } := by
  have hpairs : reviewPairs (r1 :: r2 :: rest) = reviewPairs (r1 :: rest) := by
    unfold reviewPairs
    simp only [List.map_cons]
    rw [hp]
    exact List.dedup_cons_of_mem (List.mem_cons_self _ _)
  simp only [analyze_customer_satisfaction]
  rw [hpairs]

/-- Witness for C6 (amended): duplicating the `(order_id, score)` pair of
`rC6a` as a second item row `rC6c` does not change the analysis. -/
theorem C6_dedup_pairs_witness :
    analyze_customer_satisfaction
        { cols := ["review_score"], rows := [rC6a, rC6c] } =
      analyze_customer_satisfaction { cols := ["review_score"], rows := [rC6a] } :=
  C6_dedup_pairs ["review_score"] rC6a rC6c [] (by decide)

/-! ## Claim C7: delivery bucketing -/

theorem categorize_bands (d : ℤ) :
    categorize_delivery_speed (some d) ∈
      (["1-3 days", "4-7 days", "8+ days"] : List String) := by
  unfold categorize_delivery_speed
  by_cases h3 : d ≤ 3
  · simp [h3]
  · by_cases h7 : d ≤ 7 <;> simp [h3, h7]

theorem categorize_ne_unknown (d : ℤ) :
    categorize_delivery_speed (some d) ≠ "Unknown" := by
  by_cases h3 : d ≤ 3
  · simp [categorize_delivery_speed, h3]
  · by_cases h7 : d ≤ 7 <;> simp [categorize_delivery_speed, h3, h7]

/-- C7 (functional correctness): the delivery bands are lower-inclusive —
3 days maps to `1-3 days`, 4 and 7 to `4-7 days`, 8 to `8+ days` — every
non-null day value lands in exactly one of the three bands, and the band
distribution of `analyze_delivery_performance` (computed after dropping null
`delivery_days`) contains only the three band labels, never `Unknown`. -/
theorem C7_delivery_buckets :
    categorize_delivery_speed (some 3) = "1-3 days" ∧
    categorize_delivery_speed (some 4) = "4-7 days" ∧
    categorize_delivery_speed (some 7) = "4-7 days" ∧
    categorize_delivery_speed (some 8) = "8+ days" ∧
    (∀ d : ℤ, categorize_delivery_speed (some d) ∈
      (["1-3 days", "4-7 days", "8+ days"] : List String)) ∧
    (∀ f : SalesFrame, "delivery_days" ∈ f.cols → "review_score" ∈ f.cols →
      ∃ m, analyze_delivery_performance f = Except.ok (SoftResult.metrics m) ∧
        ∀ p ∈ m.delivery_category_distribution,
          p.1 ∈ (["1-3 days", "4-7 days", "8+ days"] : List String) ∧
          p.1 ≠ "Unknown") := by
  refine ⟨by decide, by decide, by decide, by decide, categorize_bands, ?_⟩
  intro f h1 h2
  unfold analyze_delivery_performance
  rw [if_pos h1, if_pos h2]
  refine ⟨_, rfl, ?_⟩
  intro p hp
  rcases List.mem_map.1 hp with ⟨c, hc, rfl⟩
  rcases List.mem_map.1 (List.mem_dedup.1 hc) with ⟨t, ht, rfl⟩
  have hsome : t.2.1.isSome = true := (List.mem_filter.1 ht).2
  rcases Option.isSome_iff_exists.1 hsome with ⟨d, hd⟩
  rw [hd]
  exact ⟨categorize_bands d, categorize_ne_unknown d⟩

/-- A delivered item row with a 2-day delivery and a score, for the C7
witness. -/
def rD7 : SalesRecord :=
  { initRecord { order_id := "O1", order_item_id := 1, product_id := "P1",
                 price := 10, freight_value := 1 } with
    review_score := some 5, delivery_days := some 2 }

/-- Witness for the hypothesis-bearing part of C7. -/
theorem C7_delivery_buckets_witness :
    ∃ m, analyze_delivery_performance
        { cols := ["delivery_days", "review_score"], rows := [rD7] } =
        Except.ok (SoftResult.metrics m) ∧
      ∀ p ∈ m.delivery_category_distribution,
        p.1 ∈ (["1-3 days", "4-7 days", "8+ days"] : List String) ∧
        p.1 ≠ "Unknown" :=
  C7_delivery_buckets.2.2.2.2.2
    { cols := ["delivery_days", "review_score"], rows := [rD7] }
    (by decide) (by decide)

/-! ## Claim C8: monthly trends -/

theorem addGrowth_length (l : List (ℤ × ℚ × ℕ)) :
    ∀ prev, (addGrowth prev l).length = l.length := by
  induction l with
  | nil => intro prev; rfl
  | cons t rest ih => intro prev; simp [addGrowth, ih]

theorem addGrowth_months (l : List (ℤ × ℚ × ℕ)) :
    ∀ prev, (addGrowth prev l).map (·.month) = l.map (·.1) := by
  induction l with
  | nil => intro prev; rfl
  | cons t rest ih => intro prev; simp [addGrowth, mkMonthlyRow, ih]

theorem addGrowth_get_zero (l : List (ℤ × ℚ × ℕ)) (prev : Option (ℚ × ℕ))
    (h : 0 < l.length) (h2 : 0 < (addGrowth prev l).length) :
    (addGrowth prev l).get ⟨0, h2⟩ = mkMonthlyRow (l.get ⟨0, h⟩) prev := by
  cases l with
  | nil => cases h
  | cons t rest => rfl

theorem addGrowth_get_succ (l : List (ℤ × ℚ × ℕ)) :
    ∀ (prev : Option (ℚ × ℕ)) (i : ℕ) (h1 : i + 1 < l.length)
      (h0 : i < l.length) (h2 : i + 1 < (addGrowth prev l).length),
      (addGrowth prev l).get ⟨i + 1, h2⟩ =
        mkMonthlyRow (l.get ⟨i + 1, h1⟩)
          (some ((l.get ⟨i, h0⟩).2.1, (l.get ⟨i, h0⟩).2.2)) := by
  induction l with
  | nil => intro prev i h1; exact absurd h1 (by simp)
  | cons t rest ih =>
    intro prev i h1 h0 h2
    cases i with
    | zero =>
      cases rest with
      | nil => simp at h1
      | cons u rest2 => rfl
    | succ j =>
      have hr1 : j + 1 < rest.length := by simpa using h1
      have hr0 : j < rest.length := by simpa using h0
      have hr2 : j + 1 < (addGrowth (some (t.2.1, t.2.2)) rest).length := by
        rw [addGrowth_length]; exact hr1
      have := ih (some (t.2.1, t.2.2)) j hr1 hr0 hr2
      simpa [addGrowth] using this

theorem addGrowth_get_core (l : List (ℤ × ℚ × ℕ)) :
    ∀ (prev : Option (ℚ × ℕ)) (i : ℕ) (h : i < l.length)
      (h2 : i < (addGrowth prev l).length),
      ((addGrowth prev l).get ⟨i, h2⟩).revenue = (l.get ⟨i, h⟩).2.1 ∧
      ((addGrowth prev l).get ⟨i, h2⟩).orders = (l.get ⟨i, h⟩).2.2 := by
  induction l with
  | nil => intro prev i h; exact absurd h (by simp)
  | cons t rest ih =>
    intro prev i h h2
    cases i with
    | zero => exact ⟨rfl, rfl⟩
    | succ j =>
      have hr : j < rest.length := by simpa using h
      have hr2 : j < (addGrowth (some (t.2.1, t.2.2)) rest).length := by
        rw [addGrowth_length]; exact hr
      have := ih (some (t.2.1, t.2.2)) j hr hr2
      simpa [addGrowth] using this

theorem addGrowth_head_none (G : List (ℤ × ℚ × ℕ))
    (h0 : 0 < (addGrowth none G).length) :
    ((addGrowth none G).get ⟨0, h0⟩).revenue_growth_pct = none ∧
    ((addGrowth none G).get ⟨0, h0⟩).orders_growth_pct = none := by
  have hg : 0 < G.length := by rw [← addGrowth_length G none]; exact h0
  rw [addGrowth_get_zero G none hg h0]
  exact ⟨rfl, rfl⟩

theorem addGrowth_consec (G : List (ℤ × ℚ × ℕ)) (i : ℕ)
    (hi1 : i < (addGrowth none G).length)
    (hi2 : i + 1 < (addGrowth none G).length) :
    (((addGrowth none G).get ⟨i, hi1⟩).revenue ≠ 0 →
      ((addGrowth none G).get ⟨i + 1, hi2⟩).revenue_growth_pct =
        some ((((addGrowth none G).get ⟨i + 1, hi2⟩).revenue -
            ((addGrowth none G).get ⟨i, hi1⟩).revenue) /
          ((addGrowth none G).get ⟨i, hi1⟩).revenue * 100)) ∧
    (((addGrowth none G).get ⟨i, hi1⟩).orders ≠ 0 →
      ((addGrowth none G).get ⟨i + 1, hi2⟩).orders_growth_pct =
        some (((((addGrowth none G).get ⟨i + 1, hi2⟩).orders : ℚ) -
            (((addGrowth none G).get ⟨i, hi1⟩).orders : ℚ)) /
          (((addGrowth none G).get ⟨i, hi1⟩).orders : ℚ) * 100)) := by
  have hg1 : i < G.length := by rw [← addGrowth_length G none]; exact hi1
  have hg2 : i + 1 < G.length := by rw [← addGrowth_length G none]; exact hi2
  obtain ⟨hrev, hord⟩ := addGrowth_get_core G none i hg1 hi1
  rw [addGrowth_get_succ G none i hg2 hg1 hi2, hrev, hord]
  constructor
  · intro hne
    simp only [mkMonthlyRow]
    rw [if_neg hne]
  · intro hne
    simp only [mkMonthlyRow]
    rw [if_neg hne]

/-- C8 (functional correctness): `calculate_monthly_trends` emits one row per
month actually present (months with no data are absent, not zero), in
strictly ascending month order, and each row's growth percentages are the
percent change relative to the immediately preceding *present* row (the
first row has no baseline, hence absent growth). -/
theorem C8_monthly_trends (f : SalesFrame) (h : "month" ∈ f.cols) :
    ∃ rows, calculate_monthly_trends f = Except.ok rows ∧
      (rows.map (·.month)).Sorted (· < ·) ∧
      (∀ m : ℤ, m ∈ rows.map (·.month) ↔ some m ∈ f.rows.map (·.month)) ∧
      (∀ h0 : 0 < rows.length,
        (rows.get ⟨0, h0⟩).revenue_growth_pct = none ∧
        (rows.get ⟨0, h0⟩).orders_growth_pct = none) ∧
      (∀ (i : ℕ) (hi1 : i < rows.length) (hi2 : i + 1 < rows.length),
        ((rows.get ⟨i, hi1⟩).revenue ≠ 0 →
          (rows.get ⟨i + 1, hi2⟩).revenue_growth_pct =
            some (((rows.get ⟨i + 1, hi2⟩).revenue - (rows.get ⟨i, hi1⟩).revenue) /
              (rows.get ⟨i, hi1⟩).revenue * 100)) ∧
        ((rows.get ⟨i, hi1⟩).orders ≠ 0 →
          (rows.get ⟨i + 1, hi2⟩).orders_growth_pct =
            some ((((rows.get ⟨i + 1, hi2⟩).orders : ℚ) -
                ((rows.get ⟨i, hi1⟩).orders : ℚ)) /
              ((rows.get ⟨i, hi1⟩).orders : ℚ) * 100))) := by
  unfold calculate_monthly_trends
  rw [if_pos h]
  refine ⟨_, rfl, ?_, ?_, ?_, ?_⟩
  · rw [addGrowth_months, List.map_map]
    have hmap : (fun t : ℤ × ℚ × ℕ => t.1) ∘
        (fun m => (m, sumPrice (f.rows.filter fun r => r.month == some m),
          ((f.rows.filter fun r => r.month == some m).map (·.order_id)).dedup.length))
        = id := rfl
    rw [hmap, List.map_id]
    exact sorted_sortBy_int _ (List.nodup_dedup _)
  · intro m
    rw [addGrowth_months, List.map_map]
    have hmap : (fun t : ℤ × ℚ × ℕ => t.1) ∘
        (fun m => (m, sumPrice (f.rows.filter fun r => r.month == some m),
          ((f.rows.filter fun r => r.month == some m).map (·.order_id)).dedup.length))
        = id := rfl
    rw [hmap, List.map_id, mem_sortBy, List.mem_dedup]
    constructor
    · intro hm
      rcases List.mem_filterMap.1 hm with ⟨r, hr, hrm⟩
      exact List.mem_map.2 ⟨r, hr, hrm⟩
    · intro hm
      rcases List.mem_map.1 hm with ⟨r, hr, hrm⟩
      exact List.mem_filterMap.2 ⟨r, hr, hrm⟩
  · intro h0
    exact addGrowth_head_none _ h0
  · intro i hi1 hi2
    exact addGrowth_consec _ i hi1 hi2

/-- Two item rows in different months for the C8 witness. -/
def r8a : SalesRecord :=
  { initRecord { order_id := "O1", order_item_id := 1, product_id := "P1",
                 price := 10, freight_value := 1 } with month := some 1 }

/-- Second month row for the C8 witness. -/
def r8b : SalesRecord :=
  { initRecord { order_id := "O2", order_item_id := 1, product_id := "P2",
                 price := 30, freight_value := 2 } with month := some 2 }

/-- Witness for C8 at a two-month frame. -/
theorem C8_monthly_trends_witness :
    (calculate_monthly_trends { cols := ["month"], rows := [r8a, r8b] }).isOk = true := by
  obtain ⟨rows, hrows, -⟩ :=
    C8_monthly_trends { cols := ["month"], rows := [r8a, r8b] } (by decide)
  rw [hrows]
  rfl

/-! ## Claim C9: revenue shares -/

theorem map_div_mul_sum (T : ℚ) :
    ∀ vals : List ℚ, (vals.map fun v => v / T * 100).sum = vals.sum / T * 100 := by
  intro vals
  induction vals with
  | nil => simp
  | cons a l ih => simp [ih, add_div, add_mul]

theorem share_sum (vals : List ℚ) (T : ℚ) (hT : T ≠ 0) (hsum : vals.sum = T) :
    (vals.map fun v => v / T * 100).sum = 100 := by
  rw [map_div_mul_sum, hsum, div_self hT, one_mul]

/-- C9 as amended: whenever the grouped total revenue is nonzero, the
`revenue_share_pct` values of `analyze_product_performance` sum to exactly
100 across all category groups, and those of
`analyze_geographic_performance` to exactly 100 across all state groups.
(The nonzero-total hypothesis is forced by the counterexample: on a view
with no grouped revenue the code still succeeds but the shares sum to 0.) -/
theorem C9_revenue_shares (f : SalesFrame)
    (h1 : "product_category_name" ∈ f.cols) (h2 : "customer_state" ∈ f.cols)
    (hc : categoryGroupTotal f ≠ 0) (hs : stateGroupTotal f ≠ 0) :
    ∃ cs ss, analyze_product_performance f = Except.ok cs ∧
      analyze_geographic_performance f = Except.ok ss ∧
      (cs.map (·.revenue_share_pct)).sum = 100 ∧
      (ss.map (·.revenue_share_pct)).sum = 100 := by
  unfold analyze_product_performance analyze_geographic_performance
  rw [if_pos h1, if_pos h2]
  refine ⟨_, _, rfl, rfl, ?_, ?_⟩
  · rw [map_sum_sortBy, List.map_map]
    have hs2 := share_sum
      ((categoryGroups f).map fun g : String × ℚ × ℕ × ℕ => g.2.1)
      (categoryGroupTotal f) hc rfl
    rw [List.map_map] at hs2
    exact hs2
  · rw [map_sum_sortBy, List.map_map]
    have hs2 := share_sum
      ((stateGroups f).map fun g : String × ℚ × ℕ × ℕ => g.2.1)
      (stateGroupTotal f) hs rfl
    rw [List.map_map] at hs2
    exact hs2

/-- C9 counterexample: on an empty sales view both analyses succeed (the
dimension columns are present, no exception is raised) yet the revenue
shares sum to 0, not 100 — refuting "for every sales record set on which
they succeed". -/
theorem C9_shares_counterexample :
    ∃ cs ss,
      analyze_product_performance
          { cols := ["product_category_name", "customer_state"], rows := [] } =
        Except.ok cs ∧
      analyze_geographic_performance
          { cols := ["product_category_name", "customer_state"], rows := [] } =
        Except.ok ss ∧
      (cs.map (·.revenue_share_pct)).sum = 0 ∧
      (ss.map (·.revenue_share_pct)).sum = 0 ∧ (0 : ℚ) ≠ 100 := by
  refine ⟨[], [], rfl, rfl, rfl, rfl, by norm_num⟩

/-- A fully-dimensioned row for the C9 witness. -/
def r9 : SalesRecord :=
  { initRecord { order_id := "O1", order_item_id := 1, product_id := "P1",
                 price := 10, freight_value := 1 } with
    product_category_name := some "books", customer_state := some "SP",
    customer_id := some "CU1" }

/-- The C9 witness frame: one row, category `books`, state `SP`, price 10. -/
def f9w : SalesFrame :=
  { cols := ["product_category_name", "customer_state"], rows := [r9] }

/-- Witness for C9 (amended) at `f9w`. -/
theorem C9_revenue_shares_witness :
    ∃ cs ss, analyze_product_performance f9w = Except.ok cs ∧
      analyze_geographic_performance f9w = Except.ok ss ∧
      (cs.map (·.revenue_share_pct)).sum = 100 ∧
      (ss.map (·.revenue_share_pct)).sum = 100 :=
  C9_revenue_shares f9w (by decide) (by decide)
    (by show ((10 : ℚ) + 0) + 0 ≠ 0; norm_num)
    (by show ((10 : ℚ) + 0) + 0 ≠ 0; norm_num)

/-! ## Claim C10: data summary -/

/-- C10 (error handling): with no cleaned table in the store,
`get_data_summary` returns the `{"error": "No data loaded yet"}` marker;
with some tables cleaned it returns a summary populating exactly the
sections whose tables are present (orders: `total_orders`, `date_range`,
`years_available`, `order_statuses`; products: `total_products`,
`product_categories`; customers: `total_customers`, `states`) and omitting
the rest, never failing. -/
theorem C10_data_summary (pd : ProcessedData) :
    (pd.isEmpty = true → get_data_summary pd = SummaryResult.error "No data loaded yet") ∧
    (pd.isEmpty = false → ∃ s, get_data_summary pd = SummaryResult.summary s ∧
      (pd.orders = none → s.total_orders = none ∧ s.date_range = none ∧
        s.years_available = none ∧ s.order_statuses = none) ∧
      (∀ l, pd.orders = some l → s.total_orders = some l.length) ∧
      (pd.products = none → s.total_products = none ∧ s.product_categories = none) ∧
      (∀ l, pd.products = some l → s.total_products = some l.length) ∧
      (pd.customers = none → s.total_customers = none ∧ s.states = none) ∧
      (∀ l, pd.customers = some l → s.total_customers = some l.length)) := by
  constructor
  · intro he
    unfold get_data_summary
    rw [if_pos he]
  · intro he
    unfold get_data_summary
    rw [if_neg (by rw [he]; exact Bool.false_ne_true)]
    refine ⟨_, rfl, ?_, ?_, ?_, ?_, ?_, ?_⟩
    · intro ho
      rw [ho]
      exact ⟨rfl, rfl, rfl, rfl⟩
    · intro l ho
      rw [ho]
      rfl
    · intro hp
      rw [hp]
      exact ⟨rfl, rfl⟩
    · intro l hp
      rw [hp]
      rfl
    · intro hcu
      rw [hcu]
      exact ⟨rfl, rfl⟩
    · intro l hcu
      rw [hcu]
      rfl

/-- An empty processed-data store. -/
def pdEmpty : ProcessedData :=
  { orders := none, order_items := none, products := none,
    customers := none, reviews := none }

/-- A store with only the orders table cleaned. -/
def pdOrdersOnly : ProcessedData :=
  { orders := some [{ order_id := "O1", customer_id := "CU1",
                      order_status := "delivered",
                      order_purchase_timestamp := 10,
                      order_delivered_customer_date := some 14,
                      year := 2023, month := 1 }]
    order_items := none, products := none, customers := none, reviews := none }

/-- Witness for C10: the empty store yields the error marker; a store with
only orders yields a summary whose product/customer sections are absent. -/
theorem C10_data_summary_witness :
    get_data_summary pdEmpty = SummaryResult.error "No data loaded yet" ∧
    ∃ s, get_data_summary pdOrdersOnly = SummaryResult.summary s ∧
      (pdOrdersOnly.orders = none → s.total_orders = none ∧ s.date_range = none ∧
        s.years_available = none ∧ s.order_statuses = none) ∧
      (∀ l, pdOrdersOnly.orders = some l → s.total_orders = some l.length) ∧
      (pdOrdersOnly.products = none → s.total_products = none ∧
        s.product_categories = none) ∧
      (∀ l, pdOrdersOnly.products = some l → s.total_products = some l.length) ∧
      (pdOrdersOnly.customers = none → s.total_customers = none ∧ s.states = none) ∧
      (∀ l, pdOrdersOnly.customers = some l → s.total_customers = some l.length) :=
  ⟨(C10_data_summary pdEmpty).1 (by decide),
   (C10_data_summary pdOrdersOnly).2 (by decide)⟩
